import Mathlib

/-!
Verification of the CSV mesh importer (`src/csv_mesh_importer.py`).

The file embeds the core of `CSVMeshImporterOperator.execute` as pure Lean
functions:

* a CSV row is a list of fields; a field either parses as a number
  (modelled as a rational, standing for the Python float) or is a
  non-numeric string on which `float(...)` raises `ValueError`;
* the Python exceptions the core can raise are an inductive `PyError`
  (`StopIteration` from `next(reader)` on an empty stream, `IndexError`
  from list subscripts out of range, `ValueError` from `float(...)`,
  `ZeroDivisionError` from division by zero);
* `decodeRow` mirrors lines 68-72 of the source (field lookups, float
  conversion and the three perspective divisions, in the evaluation
  order of the Python expressions);
* `decode` mirrors the header skip (line 63) and the row loop (line 67);
* `buildVertexTable` mirrors the vertex-insertion loop (lines 77-78);
* `cornerIndices` / `buildFaces` mirror the face loop (lines 81-84),
  including the `range(0, len(vertices) - 1, 3)` bound, the
  `i + 1 < len(vertices)` guard and the `bm.verts[i + 2]` subscript;
* `execute` mirrors the try/except of `execute` (lines 52-145): one
  ERROR report with `str(e)` and a CANCELLED result on any exception,
  otherwise one INFO report and a FINISHED result, the built mesh, and
  the debug text listing written from the decoded vertex list
  (lines 136-138).

Host-toolkit mesh cleanup (`bpy.ops.mesh.remove_doubles`) is not part of
the repository; where a claim needs it, a definition modelled from the
specification text is used and marked as such.
-/

namespace CsvMesh

/-- One CSV field: either a string that parses as a floating-point number
(carrying its numeric value, modelled as a rational) or a string on which
the `float` conversion of line 68 raises `ValueError`. -/
inductive CsvField where
  | num (q : ℚ)
  | other (s : String)
deriving DecidableEq, Repr

/-- One CSV data row: the list of its comma-separated fields. -/
abbrev Row := List CsvField

/-- A decoded 3-D point, after the perspective divide of lines 68-70. -/
abbrev Point := ℚ × ℚ × ℚ

/-- A face: the triple of vertex indices passed to `bm.faces.new`. -/
abbrev Face := Nat × Nat × Nat

/-- The Python exceptions the `try` block of `execute` can raise from the
core logic: `StopIteration` from `next(reader)` on an empty stream,
`IndexError` from an out-of-range list subscript, `ValueError` from
`float(...)` on a non-numeric string, `ZeroDivisionError` from `x / 0`. -/
inductive PyError where
  | stopIter
  | indexError
  | valueError (s : String)
  | zeroDivisionError
deriving DecidableEq, Repr

/-- `str(e)` for each modelled exception, as CPython renders it:
`str(StopIteration())` is the empty string, `IndexError` prints
`list index out of range`, `ValueError` from `float` names the offending
text, `ZeroDivisionError` prints `float division by zero`. -/
def PyError.toMessage : PyError → String
  | .stopIter => ""
  | .indexError => "list index out of range"
  | .valueError s => "could not convert string to float: " ++ s
  | .zeroDivisionError => "float division by zero"

/-- `row[i]` on a Python list: the element when `i` is in range,
`IndexError` otherwise. -/
def pyGet (row : Row) (i : Nat) : Except PyError CsvField :=
  match row.get? i with
  | some f => .ok f
  | none => .error .indexError

/-- `float(field)`: the numeric value of a numeric field, `ValueError`
on a non-numeric one. -/
def pyFloat : CsvField → Except PyError ℚ
  | .num q => .ok q
  | .other s => .error (.valueError s)

/-- `a / b` on Python floats with numeric operands: `ZeroDivisionError`
when `b` is zero, the quotient otherwise. -/
def pyDiv (a b : ℚ) : Except PyError ℚ :=
  if b = 0 then .error .zeroDivisionError else .ok (a / b)

/-- Lines 68-72 of the source for one row: with
`headers` binding x,y,z,w to field indices 2,3,4,5,
`x = float(row[2]) / float(row[5])`, `y = float(row[3]) / float(row[5])`,
`z = float(row[4]) / float(row[5])`, in Python evaluation order
(left operand fully evaluated before the right, each division checked
for a zero divisor), producing the point `(x, y, z)`. -/
def decodeRow (row : Row) : Except PyError Point := do
  let xf ← pyGet row 2
  let xq ← pyFloat xf
  let wfx ← pyGet row 5
  let wqx ← pyFloat wfx
  let x ← pyDiv xq wqx
  let yf ← pyGet row 3
  let yq ← pyFloat yf
  let wfy ← pyGet row 5
  let wqy ← pyFloat wfy
  let y ← pyDiv yq wqy
  let zf ← pyGet row 4
  let zq ← pyFloat zf
  let wfz ← pyGet row 5
  let wqz ← pyFloat wfz
  let z ← pyDiv zq wqz
  pure (x, y, z)

/-- The loop `for row in reader` (lines 67-72): each row is decoded in
order and appended; the first exception aborts the whole loop and
discards the partial list. -/
def decodePoints : List Row → Except PyError (List Point)
  | [] => .ok []
  | r :: rs => do
    let p ← decodeRow r
    let ps ← decodePoints rs
    pure (p :: ps)

/-- Lines 63-72: `next(reader)` discards the header row — raising
`StopIteration` when the stream has no rows at all — and the remaining
rows are decoded in order by the row loop. -/
def decode (rows : List Row) : Except PyError (List Point) :=
  match rows with
  | [] => .error .stopIter
  | _ :: dataRows => decodePoints dataRows

/-- Lines 77-78: `for vertex in vertices: bm.verts.new(vertex)` — each
decoded point is appended to the vertex table at its arrival index,
with no deduplication. -/
def buildVertexTable (points : List Point) : List Point :=
  points.foldl (fun acc p => acc ++ [p]) []

/-- Line 81: `corner_indices = list(range(0, len(vertices) - 1, 3))`,
the multiples of 3 below `len(vertices) - 1` in increasing order
(`range` with a negative stop is empty, as is `List.range` with
truncated-subtraction stop). -/
def cornerIndices (n : Nat) : List Nat :=
  (List.range (n - 1)).filter (fun i => i % 3 = 0)

/-- `bm.verts[i]` after `ensure_lookup_table` on a table of `n`
vertices: the index itself when in range, `IndexError` otherwise. -/
def pyVert (n i : Nat) : Except PyError Nat :=
  if i < n then .ok i else .error .indexError

/-- Lines 82-84: for each `i` in `corner_indices`, if
`i + 1 < len(vertices)`, evaluate `bm.verts[i], bm.verts[i + 1],
bm.verts[i + 2]` (an out-of-range subscript raises `IndexError`) and
emit the face; `n` is `len(vertices)`. -/
def buildFaces (n : Nat) : Except PyError (List Face) :=
  (cornerIndices n).foldlM
    (fun acc i =>
      if i + 1 < n then do
        let a ← pyVert n i
        let b ← pyVert n (i + 1)
        let c ← pyVert n (i + 2)
        pure (acc ++ [(a, b, c)])
      else pure acc)
    []

/-- Lines 136-138: the debug text, as its list of lines — the header
line `Vertices:` followed by one line per entry of the decoded
`vertices` list. -/
def fmtPoint (p : Point) : String :=
  "(" ++ toString p.1 ++ ", " ++ toString p.2.1 ++ ", " ++ toString p.2.2 ++ ")"

/-- The debug listing written at lines 136-138, one string per line. -/
def debugListing (points : List Point) : List String :=
  "Vertices:" :: points.map fmtPoint

/-- `self.report` level, line 142 / line 144. -/
inductive ReportLevel where
  | error
  | info
deriving DecidableEq, Repr

/-- The operator result set: CANCELLED (line 143) or
FINISHED (line 145). -/
inductive OpResult where
  | cancelled
  | finished
deriving DecidableEq, Repr

/-- Everything observable from one `execute` call: the reports emitted,
the returned result, the mesh handed to the scene (vertex table and
faces; `none` when the `try` block raised), and the debug text lines
(`none` when the `try` block raised before writing them). -/
structure Outcome where
  reports : List (ReportLevel × String)
  result : OpResult
  mesh : Option (List Point × List Face)
  textLines : Option (List String)
deriving DecidableEq, Repr

/-- The fallible core of the `try` block: decode all rows, insert the
vertices, build the faces from `len(vertices)`. -/
def pipeline (rows : List Row) : Except PyError (List Point × List Face) := do
  let points ← decode rows
  let verts := buildVertexTable points
  let faces ← buildFaces verts.length
  pure (points, faces)

/-- Lines 52-145: on any exception `e` in the `try` block, one ERROR
report carrying `str(e)` and result CANCELLED with nothing committed;
otherwise the mesh and debug listing are produced, one INFO report
`Mesh imported successfully.` is emitted and the result is FINISHED. -/
def execute (rows : List Row) : Outcome :=
  match pipeline rows with
  | .error e =>
      { reports := [(.error, e.toMessage)]
        result := .cancelled
        mesh := none
        textLines := none }
  | .ok (points, faces) =>
      { reports := [(.info, "Mesh imported successfully.")]
        result := .finished
        mesh := some (buildVertexTable points, faces)
        textLines := some (debugListing points) }

/-- Whether a fallible step succeeded (no exception raised). -/
def succeeds {α : Type} : Except PyError α → Bool
  | .ok _ => true
  | .error _ => false

lemma foldl_append_singleton (l₀ : List Point) (ps : List Point) :
    ps.foldl (fun acc p => acc ++ [p]) l₀ = l₀ ++ ps := by
  induction ps generalizing l₀ with
  | nil => simp
  | cons p ps ih => simp [List.foldl, ih]

lemma buildVertexTable_eq (ps : List Point) : buildVertexTable ps = ps := by
  simp [buildVertexTable, foldl_append_singleton]

lemma decodeRow_eval (f0 f1 : CsvField) (x y z w : ℚ) (rest : List CsvField)
    (hw : w ≠ 0) :
    decodeRow (f0 :: f1 :: .num x :: .num y :: .num z :: .num w :: rest) =
      .ok (x / w, y / w, z / w) := by
  simp [decodeRow, pyGet, pyFloat, pyDiv, hw, Bind.bind, Except.bind,
    Functor.map, Except.map, Pure.pure, Except.pure]

/-- Claim C7: vertex-table construction performs no deduplication: every
decoded point (duplicates included) becomes one vertex entry at its
arrival index, so the pre-merge table is the decoded point sequence
itself, index for index. -/
theorem vertex_table_is_point_stream : ∀ points : List Point,
    buildVertexTable points = points ∧
    (buildVertexTable points).length = points.length ∧
    ∀ i : Nat, (buildVertexTable points).get? i = points.get? i := by
  intro points
  refine ⟨buildVertexTable_eq points, ?_, ?_⟩ <;> simp [buildVertexTable_eq]

/-- Claim C3: a data row whose fields at indices 2,3,4,5 are the numbers
x,y,z,w with w nonzero decodes to exactly the point
(x / w, y / w, z / w): the perspective divide and nothing else. -/
theorem perspective_divide_exact (f0 f1 : CsvField) (x y z w : ℚ)
    (rest : List CsvField) (hw : w ≠ 0) :
    decodeRow ([f0, f1, .num x, .num y, .num z, .num w] ++ rest) =
      .ok (x / w, y / w, z / w) :=
  decodeRow_eval f0 f1 x y z w rest hw

/-- Witness for C3: the row 2,4,6 with w = 2 decodes to (1, 2, 3). -/
theorem perspective_divide_exact_witness :
    (2 : ℚ) ≠ 0 ∧
    decodeRow [.other "id", .other "tag", .num 2, .num 4, .num 6, .num 2] =
      .ok (1, 2, 3) := by
  refine ⟨by norm_num, ?_⟩
  have h := perspective_divide_exact (.other "id") (.other "tag") 2 4 6 2 []
    (by norm_num)
  norm_num at h
  exact h

/-- Claim C10: only w exactly zero is rejected; a strictly negative w
decodes without error to (x / w, y / w, z / w), each coordinate the
negation of the value obtained with the divisor |w| = -w. -/
theorem negative_w_accepted (f0 f1 : CsvField) (x y z w : ℚ)
    (rest : List CsvField) (hw : w < 0) :
    decodeRow ([f0, f1, .num x, .num y, .num z, .num w] ++ rest) =
        .ok (x / w, y / w, z / w) ∧
      x / w = -(x / -w) ∧ y / w = -(y / -w) ∧ z / w = -(z / -w) := by
  refine ⟨decodeRow_eval f0 f1 x y z w rest (ne_of_lt hw), ?_, ?_, ?_⟩ <;>
    rw [div_neg, neg_neg]

/-- Witness for C10: w = -2 on the row 2,4,6 succeeds and yields
(-1, -2, -3). -/
theorem negative_w_accepted_witness :
    (-2 : ℚ) < 0 ∧
    decodeRow [.num 7, .num 8, .num 2, .num 4, .num 6, .num (-2)] =
      .ok (-1, -2, -3) := by
  refine ⟨by norm_num, ?_⟩
  have h := (negative_w_accepted (.num 7) (.num 8) 2 4 6 (-2) []
    (by norm_num)).1
  norm_num at h
  exact h

/-- Whether an exception is the `StopIteration` raised by the header
skip on an empty stream (the error kind the spec calls MissingHeader). -/
def PyError.isStop : PyError → Bool
  | .stopIter => true
  | _ => false

/-- Whether a fallible step raised the header-skip exception. -/
def raisesStop {α : Type} : Except PyError α → Bool
  | .error e => e.isStop
  | .ok _ => false

lemma raisesStop_bind {α β : Type} (x : Except PyError α)
    (f : α → Except PyError β) (hx : raisesStop x = false)
    (hf : ∀ a, raisesStop (f a) = false) :
    raisesStop (x >>= f) = false := by
  cases x with
  | error e => simpa [Bind.bind, Except.bind, raisesStop] using hx
  | ok a => simpa [Bind.bind, Except.bind] using hf a

lemma raisesStop_map {α β : Type} (g : α → β) (x : Except PyError α)
    (hx : raisesStop x = false) : raisesStop (g <$> x) = false := by
  cases x <;> simp_all [Functor.map, Except.map, raisesStop]

lemma pyGet_raisesStop (r : Row) (i : Nat) :
    raisesStop (pyGet r i) = false := by
  unfold pyGet
  cases r.get? i <;> simp [raisesStop, PyError.isStop]

lemma pyFloat_raisesStop (f : CsvField) : raisesStop (pyFloat f) = false := by
  cases f <;> simp [pyFloat, raisesStop, PyError.isStop]

lemma pyDiv_raisesStop (a b : ℚ) : raisesStop (pyDiv a b) = false := by
  unfold pyDiv
  split <;> simp [raisesStop, PyError.isStop]

lemma decodeRow_raisesStop (r : Row) : raisesStop (decodeRow r) = false := by
  unfold decodeRow
  apply raisesStop_bind _ _ (pyGet_raisesStop r 2); intro xf
  apply raisesStop_bind _ _ (pyFloat_raisesStop xf); intro xq
  apply raisesStop_bind _ _ (pyGet_raisesStop r 5); intro wfx
  apply raisesStop_bind _ _ (pyFloat_raisesStop wfx); intro wqx
  apply raisesStop_bind _ _ (pyDiv_raisesStop xq wqx); intro x
  apply raisesStop_bind _ _ (pyGet_raisesStop r 3); intro yf
  apply raisesStop_bind _ _ (pyFloat_raisesStop yf); intro yq
  apply raisesStop_bind _ _ (pyGet_raisesStop r 5); intro wfy
  apply raisesStop_bind _ _ (pyFloat_raisesStop wfy); intro wqy
  apply raisesStop_bind _ _ (pyDiv_raisesStop yq wqy); intro y
  apply raisesStop_bind _ _ (pyGet_raisesStop r 4); intro zf
  apply raisesStop_bind _ _ (pyFloat_raisesStop zf); intro zq
  apply raisesStop_bind _ _ (pyGet_raisesStop r 5); intro wfz
  apply raisesStop_bind _ _ (pyFloat_raisesStop wfz); intro wqz
  exact raisesStop_map _ _ (pyDiv_raisesStop zq wqz)

/-- Claim C5: on the empty input stream the unconditional header skip
itself fails, with the empty-stream exception (`StopIteration`, the kind
the spec names MissingHeader), and that kind is distinct from every
row-level decode failure: no row ever raises it. -/
theorem empty_stream_missing_header :
    decode [] = .error .stopIter ∧
    PyError.stopIter.isStop = true ∧
    ∀ r : Row, raisesStop (decodeRow r) = false :=
  ⟨rfl, rfl, decodeRow_raisesStop⟩

/-- Claim C6: every invocation emits exactly one report — on failure one
ERROR report whose text is the exception text, with a CANCELLED result;
on success one INFO report reading `Mesh imported successfully.`, with a
FINISHED result. -/
theorem single_report_per_invocation : ∀ rows : List Row,
    (execute rows).reports.length = 1 ∧
    ((∃ e : PyError, pipeline rows = .error e ∧
        (execute rows).reports = [(.error, e.toMessage)] ∧
        (execute rows).result = .cancelled) ∨
      ((∃ pf, pipeline rows = .ok pf) ∧
        (execute rows).reports = [(.info, "Mesh imported successfully.")] ∧
        (execute rows).result = .finished)) := by
  intro rows
  cases h : pipeline rows with
  | error e => simp [execute, h]
  | ok pf =>
    obtain ⟨points, faces⟩ := pf
    simp [execute, h]

/-- Claim C9: the decode-and-build core is deterministic — two runs on
the same input text produce the same decoded points, the same pipeline
output (vertex table and face triples) and the same outcome (reports
and result); the embedding of the core is a pure function of the input
rows and reads no other state. -/
theorem core_deterministic : ∀ rows₁ rows₂ : List Row, rows₁ = rows₂ →
    decode rows₁ = decode rows₂ ∧ pipeline rows₁ = pipeline rows₂ ∧
    execute rows₁ = execute rows₂ := by
  intro rows₁ rows₂ h
  subst h
  exact ⟨rfl, rfl, rfl⟩

/-- Witness for C9: two runs on a concrete one-row stream agree. -/
theorem core_deterministic_witness :
    ([[CsvField.num 1]] : List Row) = [[CsvField.num 1]] ∧
    execute [[CsvField.num 1]] = execute [[CsvField.num 1]] :=
  ⟨rfl, (core_deterministic [[CsvField.num 1]] [[CsvField.num 1]] rfl).2.2⟩

deriving instance DecidableEq for Except

/-- Claim C1, falsified by the face loop (code bug): with N = 5
well-formed data rows the spec promises floor(5/3) = 1 triangle and a
successful import, but `corner_indices = range(0, 4, 3) = [0, 3]` and at
`i = 3` the guard `i + 1 < 5` passes while `bm.verts[5]` is out of
range, so the loop raises IndexError and the import is cancelled with no
mesh; for N = 6 the promised two triangles (0,1,2) and (3,4,5) are
built. The spec states the guard as `i + 2 < len(points)`; the code
checks `i + 1`. -/
theorem five_data_rows_crash :
    buildFaces 5 = .error .indexError ∧
    buildFaces 6 = .ok [(0, 1, 2), (3, 4, 5)] ∧
    execute [[],
      [.num 0, .num 0, .num 1, .num 0, .num 0, .num 1],
      [.num 0, .num 0, .num 0, .num 1, .num 0, .num 1],
      [.num 0, .num 0, .num 0, .num 0, .num 1, .num 1],
      [.num 0, .num 0, .num 2, .num 0, .num 0, .num 1],
      [.num 0, .num 0, .num 0, .num 2, .num 0, .num 1]] =
      { reports := [(.error, "list index out of range")]
        result := .cancelled
        mesh := none
        textLines := none } := by
  have h5 : buildFaces 5 = .error .indexError := by decide
  refine ⟨h5, by decide, ?_⟩
  simp [execute, pipeline, decode, decodePoints, decodeRow_eval,
    buildVertexTable_eq, h5, Bind.bind, Except.bind, Pure.pure, Except.pure,
    PyError.toMessage]

/-- Claim C2, falsified by the face loop (code bug): a trailing single
point (N ≡ 1 mod 3, here N = 1 and N = 4) is indeed silently dropped,
but two trailing points (N ≡ 2 mod 3) are not — for a CSV with exactly
2 data rows, `corner_indices = range(0, 1, 3) = [0]`, the guard
`0 + 1 < 2` passes and `bm.verts[2]` raises IndexError, so the import
with fewer than 3 data rows is cancelled instead of producing zero
triangles. -/
theorem two_data_rows_crash :
    buildFaces 1 = .ok [] ∧
    buildFaces 4 = .ok [(0, 1, 2)] ∧
    buildFaces 2 = .error .indexError ∧
    (execute [[], [.num 0, .num 0, .num 7, .num 8, .num 9, .num 1]]).result
        = .finished ∧
    (execute [[], [.num 0, .num 0, .num 7, .num 8, .num 9, .num 1]]).mesh
        = some ([(7, 8, 9)], []) ∧
    execute [[],
      [.num 0, .num 0, .num 7, .num 8, .num 9, .num 1],
      [.num 0, .num 0, .num 9, .num 8, .num 7, .num 1]] =
      { reports := [(.error, "list index out of range")]
        result := .cancelled
        mesh := none
        textLines := none } := by
  have h1 : buildFaces 1 = .ok [] := by decide
  have h2 : buildFaces 2 = .error .indexError := by decide
  refine ⟨h1, by decide, h2, ?_, ?_, ?_⟩ <;>
    simp [execute, pipeline, decode, decodePoints, decodeRow_eval,
      buildVertexTable_eq, h1, h2, Bind.bind, Except.bind, Pure.pure,
      Except.pure, PyError.toMessage]

lemma decodeRow_nonnumeric_x (f0 f1 : CsvField) (s : String)
    (rest : List CsvField) :
    decodeRow (f0 :: f1 :: .other s :: rest) = .error (.valueError s) := by
  simp [decodeRow, pyGet, pyFloat, Bind.bind, Except.bind]

lemma decodeRow_zero_w (f0 f1 : CsvField) (x y z : ℚ)
    (rest : List CsvField) :
    decodeRow (f0 :: f1 :: .num x :: .num y :: .num z :: .num 0 :: rest) =
      .error .zeroDivisionError := by
  simp [decodeRow, pyGet, pyFloat, pyDiv, Bind.bind, Except.bind]

lemma decodeRow_short (r : Row) (hlen : r.length < 6) :
    succeeds (decodeRow r) = false := by
  have h5 : r[5]? = none := List.getElem?_eq_none (by omega)
  cases h2 : r[2]? with
  | none => simp [decodeRow, pyGet, h2, succeeds, Bind.bind, Except.bind]
  | some f =>
    cases f with
    | num q =>
      simp [decodeRow, pyGet, pyFloat, h2, h5, succeeds, Bind.bind,
        Except.bind]
    | other s =>
      simp [decodeRow, pyGet, pyFloat, h2, succeeds, Bind.bind, Except.bind]

lemma decodePoints_fails (l : List Row)
    (h : ∃ r ∈ l, succeeds (decodeRow r) = false) :
    ∃ e, decodePoints l = .error e := by
  induction l with
  | nil => simp at h
  | cons r rs ih =>
    cases hdr : decodeRow r with
    | error e => exact ⟨e, by simp [decodePoints, hdr, Bind.bind, Except.bind]⟩
    | ok p =>
      rcases h with ⟨r0, hr0, hfail⟩
      rcases List.mem_cons.mp hr0 with heq | hmem
      · subst heq
        simp [succeeds, hdr] at hfail
      · obtain ⟨e, he⟩ := ih ⟨r0, hmem, hfail⟩
        exact ⟨e, by simp [decodePoints, hdr, he, Bind.bind, Except.bind]⟩

lemma decodeRow_fails_x (r : Row) (s : String)
    (h2 : r[2]? = some (.other s)) :
    decodeRow r = .error (.valueError s) := by
  simp [decodeRow, pyGet, pyFloat, h2, Bind.bind, Except.bind]

lemma decodeRow_fails_w_nonnum (r : Row) (x : ℚ) (s : String)
    (h2 : r[2]? = some (.num x)) (h5 : r[5]? = some (.other s)) :
    decodeRow r = .error (.valueError s) := by
  simp [decodeRow, pyGet, pyFloat, h2, h5, Bind.bind, Except.bind]

lemma decodeRow_fails_w_zero (r : Row) (x : ℚ)
    (h2 : r[2]? = some (.num x)) (h5 : r[5]? = some (.num 0)) :
    decodeRow r = .error .zeroDivisionError := by
  simp [decodeRow, pyGet, pyFloat, pyDiv, h2, h5, Bind.bind, Except.bind]

lemma decodeRow_fails_y (r : Row) (x w : ℚ) (s : String)
    (h2 : r[2]? = some (.num x)) (h5 : r[5]? = some (.num w)) (hw : w ≠ 0)
    (h3 : r[3]? = some (.other s)) :
    decodeRow r = .error (.valueError s) := by
  simp [decodeRow, pyGet, pyFloat, pyDiv, h2, h3, h5, hw, Bind.bind,
    Except.bind]

lemma decodeRow_fails_z (r : Row) (x y w : ℚ) (s : String)
    (h2 : r[2]? = some (.num x)) (h3 : r[3]? = some (.num y))
    (h5 : r[5]? = some (.num w)) (hw : w ≠ 0)
    (h4 : r[4]? = some (.other s)) :
    decodeRow r = .error (.valueError s) := by
  simp [decodeRow, pyGet, pyFloat, pyDiv, h2, h3, h4, h5, hw, Bind.bind,
    Except.bind]

lemma decodeRow_fails_of_malformed (r : Row)
    (h : r.length < 6 ∨
      (∃ s, r[2]? = some (.other s)) ∨ (∃ s, r[3]? = some (.other s)) ∨
      (∃ s, r[4]? = some (.other s)) ∨ (∃ s, r[5]? = some (.other s)) ∨
      r[5]? = some (.num 0)) :
    succeeds (decodeRow r) = false := by
  by_cases hlen : r.length < 6
  · exact decodeRow_short r hlen
  cases h2 : r[2]? with
  | none =>
    have := List.getElem?_eq_none_iff.mp h2
    omega
  | some f2 =>
    cases f2 with
    | other s => simp [succeeds, decodeRow_fails_x r s h2]
    | num x =>
      cases h5 : r[5]? with
      | none =>
        have := List.getElem?_eq_none_iff.mp h5
        omega
      | some f5 =>
        cases f5 with
        | other s => simp [succeeds, decodeRow_fails_w_nonnum r x s h2 h5]
        | num w =>
          by_cases hw : w = 0
          · subst hw
            simp [succeeds, decodeRow_fails_w_zero r x h2 h5]
          cases h3 : r[3]? with
          | none =>
            have := List.getElem?_eq_none_iff.mp h3
            omega
          | some f3 =>
            cases f3 with
            | other s =>
              simp [succeeds, decodeRow_fails_y r x w s h2 h5 hw h3]
            | num y =>
              cases h4 : r[4]? with
              | none =>
                have := List.getElem?_eq_none_iff.mp h4
                omega
              | some f4 =>
                cases f4 with
                | other s =>
                  simp [succeeds, decodeRow_fails_z r x y w s h2 h3 h5 hw h4]
                | num z =>
                  exfalso
                  rcases h with h6 | ⟨s, hs⟩ | ⟨s, hs⟩ | ⟨s, hs⟩ | ⟨s, hs⟩ | h0
                  · exact hlen h6
                  · rw [h2] at hs; simp at hs
                  · rw [h3] at hs; simp at hs
                  · rw [h4] at hs; simp at hs
                  · rw [h5] at hs; simp at hs
                  · rw [h5] at h0
                    simp at h0
                    exact hw h0

/-- The counterexample to C4 as stated: a non-numeric x-field aborts
the import with the same single ERROR report whether the malformed row
is data row 1 or data row 2 — the error text is the bare `float`
exception text and identifies no row number. -/
theorem malformed_row_error_lacks_row_number :
    (execute [[],
        [.num 0, .num 0, .other "oops", .num 0, .num 0, .num 1]]).reports =
      (execute [[],
        [.num 0, .num 0, .num 1, .num 1, .num 1, .num 1],
        [.num 0, .num 0, .other "oops", .num 0, .num 0, .num 1]]).reports ∧
    (execute [[],
        [.num 0, .num 0, .other "oops", .num 0, .num 0, .num 1]]).reports =
      [(.error, "could not convert string to float: oops")] := by
  constructor <;>
    simp [execute, pipeline, decode, decodePoints, decodeRow_eval,
      decodeRow_nonnumeric_x, Bind.bind, Except.bind, Pure.pure, Except.pure,
      PyError.toMessage]

/-- Claim C4 as amended: a data row with fewer than 6 fields, a
non-parseable required field at any of the indices 2, 3, 4 or 5, or a
w-field equal to zero fails to decode (with the corresponding exception:
a non-parseable x-field a `ValueError`, a zero w a
`ZeroDivisionError`), and any such row aborts the entire import — the
outcome is one ERROR report carrying the exception text, a CANCELLED
result, and no mesh or scene object; the error text does not name the
offending row number. -/
theorem malformed_row_aborts_import :
    (∀ r : Row,
      (r.length < 6 ∨
        (∃ s, r[2]? = some (.other s)) ∨ (∃ s, r[3]? = some (.other s)) ∨
        (∃ s, r[4]? = some (.other s)) ∨ (∃ s, r[5]? = some (.other s)) ∨
        r[5]? = some (.num 0)) →
      succeeds (decodeRow r) = false) ∧
    (∀ (f0 f1 : CsvField) (s : String) (rest : List CsvField),
      decodeRow (f0 :: f1 :: .other s :: rest) = .error (.valueError s)) ∧
    (∀ (f0 f1 : CsvField) (x y z : ℚ) (rest : List CsvField),
      decodeRow (f0 :: f1 :: .num x :: .num y :: .num z :: .num 0 :: rest) =
        .error .zeroDivisionError) ∧
    (∀ (hdr : Row) (rows : List Row),
      (∃ r ∈ rows, succeeds (decodeRow r) = false) →
      ∃ e : PyError, decode (hdr :: rows) = .error e ∧
        execute (hdr :: rows) =
          { reports := [(.error, e.toMessage)]
            result := .cancelled
            mesh := none
            textLines := none }) := by
  refine ⟨decodeRow_fails_of_malformed, decodeRow_nonnumeric_x,
    decodeRow_zero_w, ?_⟩
  intro hdr rows h
  obtain ⟨e, he⟩ := decodePoints_fails rows h
  exact ⟨e, by simp [decode, he],
    by simp [execute, pipeline, decode, he, Bind.bind, Except.bind]⟩

/-- Witness for the amended C4: the one-field row `oops` is too short
and fails to decode; a row whose only defect is a non-parseable y-field
(index 3) also fails to decode; and the too-short row as sole data row
cancels the import with no mesh. -/
theorem malformed_row_aborts_import_witness :
    succeeds (decodeRow [CsvField.other "oops"]) = false ∧
    succeeds (decodeRow [CsvField.num 0, CsvField.num 0, CsvField.num 1,
      CsvField.other "bad", CsvField.num 1, CsvField.num 2]) = false ∧
    ∃ e : PyError, decode [[], [CsvField.other "oops"]] = .error e ∧
      execute [[], [CsvField.other "oops"]] =
        { reports := [(.error, e.toMessage)]
          result := .cancelled
          mesh := none
          textLines := none } := by
  have h1 := malformed_row_aborts_import.1 [CsvField.other "oops"]
    (Or.inl (by decide))
  have h2 := malformed_row_aborts_import.1 [CsvField.num 0, CsvField.num 0,
    CsvField.num 1, CsvField.other "bad", CsvField.num 1, CsvField.num 2]
    (Or.inr (Or.inr (Or.inl ⟨"bad", rfl⟩)))
  exact ⟨h1, h2,
    malformed_row_aborts_import.2.2.2 [] [[CsvField.other "oops"]]
      ⟨_, by simp, h1⟩⟩

/-- Modelled from the spec: the merge-by-distance cleanup is performed
by the host toolkit call `bpy.ops.mesh.remove_doubles(threshold=0.001)`
and its algorithm is absent from src; per the spec, two vertices whose
Euclidean distance is at most 0.001 are coalesced into one. This decides
that distance test (squared distance against the squared threshold). -/
def withinThreshold (p q : Point) : Bool :=
  if (p.1 - q.1) ^ 2 + (p.2.1 - q.2.1) ^ 2 + (p.2.2 - q.2.2) ^ 2 ≤
      (1 / 1000 : ℚ) ^ 2 then true else false

/-- Modelled from the spec: the merge-by-distance pass over the vertex
table — a vertex within the threshold of an already-kept vertex is
coalesced into that earlier survivor, every other vertex is kept. -/
def mergeByDistance (ps : List Point) : List Point :=
  ps.foldl
    (fun acc p =>
      if acc.any (fun q => withinThreshold p q) then acc else acc ++ [p])
    []

/-- The counterexample to C8 as stated: a successful import of 6 decoded
points containing exact duplicates writes a listing of 1 + 6 = 7 lines,
while the merge-by-distance cleanup leaves only 4 final vertices — the
listing enumerates the pre-merge decoded points, not the final
(post-cleanup) vertices. -/
theorem debug_listing_not_final_vertices :
    (execute [[],
        [.num 0, .num 0, .num 0, .num 0, .num 0, .num 1],
        [.num 0, .num 0, .num 1, .num 0, .num 0, .num 1],
        [.num 0, .num 0, .num 0, .num 1, .num 0, .num 1],
        [.num 0, .num 0, .num 0, .num 0, .num 0, .num 1],
        [.num 0, .num 0, .num 1, .num 0, .num 0, .num 1],
        [.num 0, .num 0, .num 0, .num 1, .num 1, .num 1]]).textLines =
      some (debugListing [(0, 0, 0), (1, 0, 0), (0, 1, 0), (0, 0, 0),
        (1, 0, 0), (0, 1, 1)]) ∧
    (debugListing [(0, 0, 0), (1, 0, 0), (0, 1, 0), (0, 0, 0), (1, 0, 0),
        (0, 1, 1)]).length = 7 ∧
    (mergeByDistance [(0, 0, 0), (1, 0, 0), (0, 1, 0), (0, 0, 0), (1, 0, 0),
        (0, 1, 1)]).length = 4 ∧
    ¬ (debugListing [(0, 0, 0), (1, 0, 0), (0, 1, 0), (0, 0, 0), (1, 0, 0),
        (0, 1, 1)]).length =
      1 + (mergeByDistance [(0, 0, 0), (1, 0, 0), (0, 1, 0), (0, 0, 0),
        (1, 0, 0), (0, 1, 1)]).length := by
  have h6 : buildFaces 6 = .ok [(0, 1, 2), (3, 4, 5)] := by decide
  have hm : mergeByDistance [(0, 0, 0), (1, 0, 0), (0, 1, 0), (0, 0, 0),
      (1, 0, 0), (0, 1, 1)] = [(0, 0, 0), (1, 0, 0), (0, 1, 0), (0, 1, 1)] :=
    by norm_num [mergeByDistance, withinThreshold, List.any]
  have hd : (debugListing [((0 : ℚ), (0 : ℚ), (0 : ℚ)), (1, 0, 0), (0, 1, 0),
      (0, 0, 0), (1, 0, 0), (0, 1, 1)]).length = 7 := by
    simp [debugListing]
  refine ⟨?_, hd, by rw [hm]; simp, ?_⟩
  · simp [execute, pipeline, decode, decodePoints, decodeRow_eval,
      buildVertexTable_eq, h6, Bind.bind, Except.bind, Pure.pure,
      Except.pure]
  · rw [hd, hm]
    decide

/-- Claim C8 as amended: on every successful import the debug text
listing is one `Vertices:` header line followed by exactly one line per
pre-merge decoded point, each formatted as (x, y, z), enumerating the
decoded points in input order rather than the post-cleanup vertices. -/
theorem debug_listing_lists_decoded_points (rows : List Row)
    (points : List Point) (faces : List Face)
    (h : pipeline rows = .ok (points, faces)) :
    (execute rows).textLines = some ("Vertices:" :: points.map fmtPoint) ∧
    (execute rows).textLines = some (debugListing points) ∧
    (debugListing points).length = points.length + 1 := by
  refine ⟨?_, ?_, ?_⟩ <;> simp [execute, h, debugListing]

/-- Witness for the amended C8: one decoded point yields a two-line
listing. -/
theorem debug_listing_lists_decoded_points_witness :
    pipeline [[], [.num 0, .num 0, .num 3, .num 4, .num 5, .num 1]] =
      .ok ([((3 : ℚ), (4 : ℚ), (5 : ℚ))], []) ∧
    (execute [[],
        [.num 0, .num 0, .num 3, .num 4, .num 5, .num 1]]).textLines =
      some (debugListing [(3, 4, 5)]) := by
  have h1 : buildFaces 1 = .ok [] := by decide
  have hp : pipeline [[], [.num 0, .num 0, .num 3, .num 4, .num 5,
      .num 1]] = .ok ([((3 : ℚ), (4 : ℚ), (5 : ℚ))], []) := by
    simp [pipeline, decode, decodePoints, decodeRow_eval,
      buildVertexTable_eq, h1, Bind.bind, Except.bind, Pure.pure,
      Except.pure]
  exact ⟨hp, (debug_listing_lists_decoded_points _ _ _ hp).2.1⟩

end CsvMesh
